import Mathlib

/-!
Verification of `spot_wrapper/spot_dance.py`: a shallow embedding of the
`SpotDance` class and proofs about its dance-execution workflow.

Modelling conventions:
- Machine floats of the source (`slices_per_minute`, elapsed seconds) are
  modelled as exact rationals `ℚ`; the literal `0.2` of the source is `1/5`.
- The real-time poll loop (`while time.time() - start < est + 0.2: poll;
  sleep(0.2)`) is idealized, as the spec does, to a loop whose i-th status
  sample happens at elapsed time `i * 0.2` seconds: the loop polls sample i
  while `i * (1/5) < est + 1/5` and otherwise raises the timeout.
- Calls to external collaborators (the robot, the choreography client, the
  text-format parser, the animation converter) are modelled by an
  environment record holding each call's outcome; a raised Python exception
  is an `Except.error` / dedicated constructor carrying `str(e)`.
- Each operation also returns the trace of external calls it performed, so
  that "no upload call occurs" style properties are statable.
-/

namespace SpotDance

/-- Status enum of `ChoreographyStatusResponse.Status` from the proto,
with its wire codes (used when the source interpolates the value into an
f-string, where a Python proto enum prints as its integer code). -/
inductive Status where
  | unknown
  | dancing
  | completedSequence
  | prepping
  | waitingForStartTime
  | validating
  | interrupted
  | fallen
  | poweredOff
  | stopped
deriving DecidableEq

/-- Wire code of a `ChoreographyStatusResponse.Status` value. -/
def Status.code : Status → ℕ
  | .unknown => 0
  | .dancing => 1
  | .completedSequence => 2
  | .prepping => 3
  | .waitingForStartTime => 4
  | .validating => 5
  | .interrupted => 6
  | .fallen => 7
  | .poweredOff => 8
  | .stopped => 9

/-- String a Python f-string produces for a status value. -/
def statusStr (s : Status) : String := toString s.code

/-- Status enum of `ExecuteChoreographyResponse.Status` from the proto. -/
inductive ExecStatus where
  | unknown
  | ok
  | robotCommandIssues
  | leaseError
deriving DecidableEq

/-- Wire code of an `ExecuteChoreographyResponse.Status` value. -/
def ExecStatus.code : ExecStatus → ℕ
  | .unknown => 0
  | .ok => 1
  | .robotCommandIssues => 2
  | .leaseError => 3

/-- String a Python f-string produces for an execute-status value. -/
def execStatusStr (s : ExecStatus) : String := toString s.code

/-- One `Move` of a `ChoreographySequence` proto: the embedding keeps the
single field the source reads, `requested_slices` (an int32). -/
structure Move where
  requested_slices : ℤ
deriving DecidableEq

/-- The `ChoreographySequence` proto: the fields the source reads. -/
structure ChoreographySequence where
  name : String
  slices_per_minute : ℚ
  moves : List Move
deriving DecidableEq

/-- Outcome of the `upload_choreography` call, mirroring the handlers of
`execute_dance` lines 112-124: success, `UnauthenticatedError`,
`ResponseError` (carrying `err.response.warnings`), or any other raised
exception — which no handler of the source catches. -/
inductive UploadOutcome where
  | ok
  | unauthenticated (detail : String)
  | responseError (warnings : List String)
  | raises (detail : String)
deriving DecidableEq

/-- The external-call outcomes one `execute_dance` run observes. -/
structure DanceEnv where
  /-- Result of `self._robot.is_estopped()`. -/
  is_estopped : Bool
  /-- Result of `text_format.Merge(data, choreography)`: the parsed
  sequence, or the raised exception's text. -/
  parseResult : Except String ChoreographySequence
  /-- Outcome of `self._choreography_client.upload_choreography(...)`. -/
  uploadResult : UploadOutcome
  /-- Outcome of `self._robot.power_on()`. -/
  powerOn : Except String Unit
  /-- Outcome of `self._choreography_client.execute_choreography(...)`:
  the response's status, or the raised exception's text. -/
  executeResult : Except String ExecStatus
  /-- Outcome of the i-th `get_choreography_status()` call: a status, or
  the raised exception's text. -/
  samples : ℕ → Except String Status

/-- External calls `execute_dance` makes, in order. -/
inductive Call where
  | parse
  | upload
  | powerOn
  | execute
  | poll
deriving DecidableEq

/-- Result of one `execute_dance` run: a returned `(bool, str)` tuple, a
raised `CommandTimedOutError`, or an exception that propagates uncaught. -/
inductive DanceOutcome where
  | result (ok : Bool) (msg : String)
  | commandTimedOutError (msg : String)
  | uncaught (detail : String)
deriving DecidableEq

/-- Source line 103: the estop message. Line 104 of the source is a bare
string expression statement (a no-op in Python), so only this first string
is the message. -/
def estopMsg : String := "Robot is estopped. Please use an external E-Stop client"

/-- Source line 110 message head. -/
def parseErrHead : String := "Failed to load choreography. Raised exception: "

/-- Source line 117: the license message. Line 118 of the source is a bare
string expression statement (a no-op in Python), so only this first string
is the message. -/
def licenseMsg : String :=
  "The robot license must contain 'choreography' permissions to upload and execute dances."

/-- Source line 121 message head, extended by each warning in turn. -/
def warnHead : String := "Choreography sequence upload failed. The following warnings were produced: "

/-- Source line 138 message head. -/
def execIssueHead : String := "Issue calling execute_choreography, got response.status: "

/-- Source line 155 message head. -/
def unsuccessHead : String := "call to execute_choreography returned unsuccessful status: "

/-- Source line 160: the message of the re-raised `CommandTimedOutError`. -/
def timeoutMsg : String :=
  "Call to execute_choreography did not return completion state in stipulated time"

/-- Source line 162 message head (`f"Error executing dance: {e}"`). -/
def genericErrHead : String := "Error executing dance: "

/-- Text of the `UnboundLocalError` Python raises at line 147 when
`estimated_time_seconds` was never assigned (the zero-move routine). -/
def unboundLocalMsg : String :=
  "local variable estimated_time_seconds referenced before assignment"

/-- Text of the `ZeroDivisionError` Python raises at line 143 when
`choreography.slices_per_minute` is zero. -/
def zeroDivMsg : String := "float division by zero"

/-- Source lines 93-97: the list `ongoing_states`. -/
def ongoing_states : List Status :=
  [Status.prepping, Status.dancing, Status.waitingForStartTime, Status.validating]

/-- Source lines 91-98, `SpotDance._check_dance_completed`: true iff the
status is not one of the four ongoing states. -/
def check_dance_completed (status : Status) : Bool :=
  decide (status ∉ ongoing_states)

/-- Source lines 139-144: the per-move loop. `total` is the running
`total_choreography_slices`; `est` the last value assigned to
`estimated_time_seconds` (`none` while still unassigned). A zero rate makes
the division raise `ZeroDivisionError` on the first iteration. -/
def estLoopAux (rate : ℚ) : List Move → ℤ → Option ℚ → Except String (Option ℚ)
  | [], _, est => .ok est
  | m :: ms, total, _ =>
    let total2 := total + m.requested_slices
    if rate = 0 then .error zeroDivMsg
    else estLoopAux rate ms total2 (some ((total2 : ℚ) / rate * 60))

/-- Final state of `estimated_time_seconds` after the per-move loop of
source lines 139-144 (`.ok none` = the variable was never assigned). -/
def estLoop (moves : List Move) (rate : ℚ) : Except String (Option ℚ) :=
  estLoopAux rate moves 0 none

/-- The spec's formulation of step 6 (duration estimation), stated from
the spec's words for the refinement claim: "sum the `requested_slices` of
every Move in the routine to obtain total slices; convert to seconds via
`total_slices / slices_per_minute * 60`", as a single post-loop
computation over the full move list. -/
def estimate_post_loop (moves : List Move) (rate : ℚ) : ℚ :=
  (((moves.map Move.requested_slices).sum : ℤ) : ℚ) / rate * 60

/-- Result of the polling loop of source lines 146-157: a returned tuple,
an exception raised by a status call (propagating out of the loop), or
the loop condition expiring (the `CommandTimedOutError` raise). -/
inductive PollOutcome where
  | finished (ok : Bool) (msg : String)
  | raised (detail : String)
  | timedOut
deriving DecidableEq

/-- Loop condition of source line 147 at the i-th iteration: elapsed time
`i * 0.2` is still below `estimated_time_seconds + 0.2`. -/
def withinWindow (est : ℚ) (i : ℕ) : Prop := (i : ℚ) * (1/5) < est + 1/5

instance (est : ℚ) (i : ℕ) : Decidable (withinWindow est i) :=
  inferInstanceAs (Decidable (_ < _))

/-- Computable ceiling of a rational (Lean's `Int./` is Euclidean
division, which for a positive divisor is floor division). -/
def ratCeil (q : ℚ) : ℤ := -((-q).num / ((-q).den : ℤ))

/-- Iteration bound for the polling loop: the number of naturals i with
`i * 0.2 < est + 0.2`, i.e. with `i < 5*est + 1`. -/
def pollFuel (est : ℚ) : ℕ := (ratCeil (5 * est + 1)).toNat

/-- Source lines 147-157, one iteration per call: at iteration index `i`,
if the loop condition holds, poll sample i; a raised exception propagates,
a terminal status returns success iff it is `STATUS_COMPLETED_SEQUENCE`,
an ongoing status sleeps 0.2 s and loops. Returns the outcome and the
number of status calls made. `fuel` only bounds recursion; it is chosen so
that it runs out exactly when the loop condition fails. -/
def pollAux (est : ℚ) (samples : ℕ → Except String Status) :
    ℕ → ℕ → PollOutcome × ℕ
  | 0, i => (.timedOut, i)
  | fuel + 1, i =>
    if withinWindow est i then
      match samples i with
      | .error e => (.raised e, i + 1)
      | .ok s =>
        if check_dance_completed s then
          if s = Status.completedSequence then (.finished true "success", i + 1)
          else (.finished false (unsuccessHead ++ statusStr s), i + 1)
        else pollAux est samples fuel (i + 1)
    else (.timedOut, i)

/-- The whole polling loop of source lines 146-157, from iteration 0. -/
def pollLoop (est : ℚ) (samples : ℕ → Except String Status) : PollOutcome × ℕ :=
  pollAux est samples (pollFuel est) 0

/-- How `execute_dance` converts the poll loop's outcome: a returned tuple
passes through; an exception from a status call falls to the
`except Exception` handler of line 161; the `CommandTimedOutError` of line
157 is re-raised at line 160 with a message. -/
def pollResultToOutcome : PollOutcome → DanceOutcome
  | .finished ok msg => .result ok msg
  | .raised e => .result false (genericErrHead ++ e)
  | .timedOut => .commandTimedOutError timeoutMsg

/-- The call trace prefix once execution reaches the polling loop. -/
def callsBase : List Call := [Call.parse, Call.upload, Call.powerOn, Call.execute]

/-- Source lines 100-162, `SpotDance.execute_dance`, over an environment of
external-call outcomes; returns the outcome and the external calls made. -/
def execute_dance (env : DanceEnv) : DanceOutcome × List Call :=
  if env.is_estopped then
    (.result false estopMsg, [])
  else
    match env.parseResult with
    | .error e => (.result false (parseErrHead ++ e), [Call.parse])
    | .ok choreography =>
      match env.uploadResult with
      | .unauthenticated _ => (.result false licenseMsg, [Call.parse, Call.upload])
      | .responseError warnings =>
        (.result false (warnHead ++ String.join warnings), [Call.parse, Call.upload])
      | .raises e => (.uncaught e, [Call.parse, Call.upload])
      | .ok =>
        match env.powerOn with
        | .error e =>
          (.result false (genericErrHead ++ e), [Call.parse, Call.upload, Call.powerOn])
        | .ok _ =>
          match env.executeResult with
          | .error e => (.result false (genericErrHead ++ e), callsBase)
          | .ok st =>
            if st = ExecStatus.ok then
              match estLoop choreography.moves choreography.slices_per_minute with
              | .error e => (.result false (genericErrHead ++ e), callsBase)
              | .ok none => (.result false (genericErrHead ++ unboundLocalMsg), callsBase)
              | .ok (some est) =>
                let p := pollLoop est env.samples
                (pollResultToOutcome p.1, callsBase ++ List.replicate p.2 Call.poll)
            else
              (.result false (execIssueHead ++ execStatusStr st), callsBase)

/-- External calls `upload_animation` makes. -/
inductive AnimCall where
  | convert
  | upload
deriving DecidableEq

/-- The external-call outcomes one `upload_animation` run observes. -/
structure AnimEnv where
  /-- Outcome of `convert_animation_file_to_proto(filename).proto` (the
  proto itself is opaque to the source, so it is elided). -/
  convertResult : Except String Unit
  /-- Outcome of `self._choreography_client.upload_animated_move(...)`. -/
  uploadResult : Except String Unit

/-- Source line 51 message head. -/
def convErrHead : String := "Failed to convert animation file to protobuf message: "

/-- Source line 61 message head. -/
def animUploadErrHead : String := "Failed to upload animation: "

/-- Source lines 37-63, `SpotDance.upload_animation`: returns the
`(bool, str)` tuple and the external calls made. -/
def upload_animation (env : AnimEnv) : (Bool × String) × List AnimCall :=
  match env.convertResult with
  | .error e => ((false, convErrHead ++ e), [AnimCall.convert])
  | .ok _ =>
    match env.uploadResult with
    | .error e => ((false, animUploadErrHead ++ e), [AnimCall.convert, AnimCall.upload])
    | .ok _ => ((true, "Success"), [AnimCall.convert, AnimCall.upload])

/-! ### Helper lemmas -/

/-- A status call that lets the polling loop continue: a successful call
whose status is one of the ongoing states. -/
def ongoingOk (r : Except String Status) : Prop :=
  ∃ s, r = Except.ok s ∧ check_dance_completed s = false

/-- A status call that stops the polling loop: a raised exception or a
terminal status. -/
def stopsPoll : Except String Status → Bool
  | .error _ => true
  | .ok s => check_dance_completed s

/-- What the polling loop produces at a stopping status call. -/
def stopOutcome : Except String Status → PollOutcome
  | .error e => .raised e
  | .ok s =>
    if s = Status.completedSequence then .finished true "success"
    else .finished false (unsuccessHead ++ statusStr s)

theorem ratCeil_eq (q : ℚ) : ratCeil q = ⌈q⌉ := by
  unfold ratCeil
  rw [← Rat.floor_def, Int.floor_neg, neg_neg]

theorem windowIff (est : ℚ) (i : ℕ) : withinWindow est i ↔ (i : ℚ) < 5 * est + 1 := by
  unfold withinWindow
  constructor <;> intro h <;> linarith

theorem windowMono {est : ℚ} {i j : ℕ} (hij : i ≤ j) (h : withinWindow est j) :
    withinWindow est i := by
  rw [windowIff] at h ⊢
  have : (i : ℚ) ≤ (j : ℚ) := by exact_mod_cast hij
  linarith

theorem lt_pollFuel {est : ℚ} {i : ℕ} (h : withinWindow est i) : i < pollFuel est := by
  rw [windowIff] at h
  have h2 : (i : ℤ) < ⌈5 * est + 1⌉ := by
    have := lt_of_lt_of_le h (Int.le_ceil (5 * est + 1))
    exact_mod_cast this
  unfold pollFuel
  rw [ratCeil_eq]
  omega

theorem pollFuel_le {est : ℚ} {i : ℕ} (h : ¬ withinWindow est i) : pollFuel est ≤ i := by
  rw [windowIff] at h
  push_neg at h
  have h2 : ⌈5 * est + 1⌉ ≤ (i : ℤ) := Int.ceil_le.mpr (by exact_mod_cast h)
  unfold pollFuel
  rw [ratCeil_eq]
  omega

theorem pollAux_stop (est : ℚ) (samples : ℕ → Except String Status) :
    ∀ (m f i : ℕ), i + f = pollFuel est →
      (∀ j, j < m → ongoingOk (samples (i + j))) →
      withinWindow est (i + m) → stopsPoll (samples (i + m)) = true →
      pollAux est samples f i = (stopOutcome (samples (i + m)), i + m + 1) := by
  intro m
  induction m with
  | zero =>
    intro f i hf hj hw hs
    have hwi : withinWindow est i := by simpa using hw
    have hfpos : f ≠ 0 := by have := lt_pollFuel hwi; omega
    obtain ⟨f', rfl⟩ := Nat.exists_eq_succ_of_ne_zero hfpos
    simp only [Nat.add_zero] at hs ⊢
    simp only [pollAux]
    rw [if_pos hwi]
    cases hsam : samples i with
    | error e => simp [stopOutcome, hsam]
    | ok s =>
      have hc : check_dance_completed s = true := by
        rw [hsam] at hs
        simpa [stopsPoll] using hs
      simp only [hsam, hc, if_true]
      by_cases hcs : s = Status.completedSequence <;> simp [stopOutcome, hcs]
  | succ m ih =>
    intro f i hf hj hw hs
    have hwi : withinWindow est i := windowMono (by omega) hw
    have hfpos : f ≠ 0 := by have := lt_pollFuel hwi; omega
    obtain ⟨f', rfl⟩ := Nat.exists_eq_succ_of_ne_zero hfpos
    obtain ⟨s0, hs0, hc0⟩ := hj 0 (Nat.succ_pos m)
    simp only [Nat.add_zero] at hs0
    simp only [pollAux]
    rw [if_pos hwi]
    simp only [hs0, hc0, Bool.false_eq_true, if_false]
    have harith : i + 1 + m = i + (m + 1) := by omega
    have := ih f' (i + 1) (by omega)
      (fun j hjm => by
        have := hj (j + 1) (by omega)
        simpa [show i + (j + 1) = i + 1 + j by omega] using this)
      (by rwa [harith])
      (by rwa [harith])
    rw [this, harith]

theorem pollAux_timeout (est : ℚ) (samples : ℕ → Except String Status) :
    ∀ (f i : ℕ), i + f = pollFuel est →
      (∀ j, withinWindow est j → ongoingOk (samples j)) →
      pollAux est samples f i = (PollOutcome.timedOut, pollFuel est) := by
  intro f
  induction f with
  | zero =>
    intro i hf _
    simpa [pollAux] using by omega
  | succ f ih =>
    intro i hf hw
    by_cases hwi : withinWindow est i
    · obtain ⟨s0, hs0, hc0⟩ := hw i hwi
      simp only [pollAux]
      rw [if_pos hwi]
      simp only [hs0, hc0, Bool.false_eq_true, if_false]
      exact ih (i + 1) (by omega) hw
    · exact absurd (pollFuel_le hwi) (by omega)

theorem pollLoop_stop {est : ℚ} {samples : ℕ → Except String Status} {m : ℕ}
    (hj : ∀ j, j < m → ongoingOk (samples j)) (hw : withinWindow est m)
    (hs : stopsPoll (samples m) = true) :
    pollLoop est samples = (stopOutcome (samples m), m + 1) := by
  have := pollAux_stop est samples m (pollFuel est) 0 (by omega)
    (fun j hjm => by simpa using hj j hjm) (by simpa using hw) (by simpa using hs)
  simpa using this

theorem pollLoop_timeout {est : ℚ} {samples : ℕ → Except String Status}
    (hw : ∀ j, withinWindow est j → ongoingOk (samples j)) :
    pollLoop est samples = (PollOutcome.timedOut, pollFuel est) :=
  pollAux_timeout est samples (pollFuel est) 0 (by omega) hw

theorem estLoopAux_of_ne {rate : ℚ} (hr : rate ≠ 0) :
    ∀ (ms : List Move) (total : ℤ) (acc : Option ℚ), ms ≠ [] →
      estLoopAux rate ms total acc =
        Except.ok (some ((((total + (ms.map Move.requested_slices).sum : ℤ)) : ℚ) / rate * 60)) := by
  intro ms
  induction ms with
  | nil => intro _ _ h; exact absurd rfl h
  | cons a ms ih =>
    intro total acc _
    simp only [estLoopAux, hr, if_false]
    cases hms : ms with
    | nil => simp [estLoopAux]
    | cons b ms' =>
      rw [← hms, ih (total + a.requested_slices) _ (by simp [hms])]
      simp [Int.add_assoc]

theorem estLoop_of_ne {moves : List Move} {rate : ℚ} (hm : moves ≠ []) (hr : rate ≠ 0) :
    estLoop moves rate = Except.ok (some (estimate_post_loop moves rate)) := by
  unfold estLoop estimate_post_loop
  rw [estLoopAux_of_ne hr moves 0 none hm]
  norm_num

theorem estLoop_ok_some {moves : List Move} {rate est : ℚ}
    (h : estLoop moves rate = Except.ok (some est)) :
    moves ≠ [] ∧ rate ≠ 0 ∧ est = estimate_post_loop moves rate := by
  rcases moves with _ | ⟨a, ms⟩
  · simp [estLoop, estLoopAux] at h
  · by_cases hr : rate = 0
    · rw [hr] at h
      simp [estLoop, estLoopAux] at h
    · refine ⟨by simp, hr, ?_⟩
      rw [estLoop_of_ne (by simp) hr] at h
      simp only [Except.ok.injEq, Option.some.injEq] at h
      exact h.symm

theorem execute_dance_poll {env : DanceEnv} {seq : ChoreographySequence} {est : ℚ}
    (h1 : env.is_estopped = false) (h2 : env.parseResult = Except.ok seq)
    (h3 : env.uploadResult = UploadOutcome.ok) (h4 : env.powerOn = Except.ok ())
    (h5 : env.executeResult = Except.ok ExecStatus.ok)
    (h6 : estLoop seq.moves seq.slices_per_minute = Except.ok (some est)) :
    execute_dance env =
      (pollResultToOutcome (pollLoop est env.samples).1,
       callsBase ++ List.replicate (pollLoop est env.samples).2 Call.poll) := by
  simp [execute_dance, h1, h2, h3, h4, h5, h6]

/-! ### The claims -/

/-- C1: in every execution that reaches the polling loop and in which every
status sample within the `estimated_time_seconds + 0.2` window is ongoing,
`execute_dance` raises `CommandTimedOutError` — never a `(bool, string)`
result tuple — after polling at the fixed 0.2-second cadence exactly once
per instant `i * 0.2 < est + 0.2`. -/
theorem C1_timeout_raises (env : DanceEnv) (seq : ChoreographySequence) (est : ℚ)
    (h1 : env.is_estopped = false) (h2 : env.parseResult = Except.ok seq)
    (h3 : env.uploadResult = UploadOutcome.ok) (h4 : env.powerOn = Except.ok ())
    (h5 : env.executeResult = Except.ok ExecStatus.ok)
    (h6 : estLoop seq.moves seq.slices_per_minute = Except.ok (some est))
    (hw : ∀ i, withinWindow est i →
      ∃ s, env.samples i = Except.ok s ∧ check_dance_completed s = false) :
    execute_dance env =
      (DanceOutcome.commandTimedOutError timeoutMsg,
       callsBase ++ List.replicate (pollFuel est) Call.poll) ∧
    ∀ b m, (execute_dance env).1 ≠ DanceOutcome.result b m := by
  have hp : pollLoop est env.samples = (PollOutcome.timedOut, pollFuel est) :=
    pollLoop_timeout hw
  rw [execute_dance_poll h1 h2 h3 h4 h5 h6, hp]
  exact ⟨rfl, by simp [pollResultToOutcome]⟩

/-- C1 witness: a one-move routine (1 slice at 300 slices/minute, so an
estimate of 0.2 s) whose status samples are all `STATUS_DANCING` makes
`execute_dance` raise the timeout. -/
theorem C1_witness :
    (execute_dance ⟨false, Except.ok ⟨"d", 300, [⟨1⟩]⟩, UploadOutcome.ok,
        Except.ok (), Except.ok ExecStatus.ok, fun _ => Except.ok Status.dancing⟩).1 =
      DanceOutcome.commandTimedOutError timeoutMsg := by
  have h := C1_timeout_raises
    ⟨false, Except.ok ⟨"d", 300, [⟨1⟩]⟩, UploadOutcome.ok,
      Except.ok (), Except.ok ExecStatus.ok, fun _ => Except.ok Status.dancing⟩
    ⟨"d", 300, [⟨1⟩]⟩ (1/5) rfl rfl rfl rfl rfl (by norm_num [estLoop, estLoopAux])
    (fun i _ => ⟨Status.dancing, rfl, rfl⟩)
  exact congrArg Prod.fst h.1

/-- C2: a sample is terminal iff its status is none of the four ongoing
states, and on the first terminal sample `execute_dance` returns success
exactly for `STATUS_COMPLETED_SEQUENCE`, otherwise failure with the raw
status value embedded in the message, with no polling after that sample
(exactly `m + 1` status calls when the terminal sample is sample `m`). -/
theorem C2_terminal_classification :
    (∀ s : Status, check_dance_completed s = true ↔
      (s ≠ Status.prepping ∧ s ≠ Status.dancing ∧
       s ≠ Status.waitingForStartTime ∧ s ≠ Status.validating))
    ∧ ∀ (env : DanceEnv) (seq : ChoreographySequence) (est : ℚ) (m : ℕ) (s : Status),
        env.is_estopped = false → env.parseResult = Except.ok seq →
        env.uploadResult = UploadOutcome.ok → env.powerOn = Except.ok () →
        env.executeResult = Except.ok ExecStatus.ok →
        estLoop seq.moves seq.slices_per_minute = Except.ok (some est) →
        (∀ j, j < m → ∃ s0, env.samples j = Except.ok s0 ∧ check_dance_completed s0 = false) →
        withinWindow est m → env.samples m = Except.ok s → check_dance_completed s = true →
        execute_dance env =
          ((if s = Status.completedSequence then DanceOutcome.result true "success"
            else DanceOutcome.result false (unsuccessHead ++ statusStr s)),
           callsBase ++ List.replicate (m + 1) Call.poll) := by
  constructor
  · intro s
    cases s <;> decide
  · intro env seq est m s h1 h2 h3 h4 h5 h6 hj hw hsam hterm
    have hstop : stopsPoll (env.samples m) = true := by
      rw [hsam]; simpa [stopsPoll] using hterm
    have hp := pollLoop_stop (fun j hjm => hj j hjm) hw hstop
    rw [execute_dance_poll h1 h2 h3 h4 h5 h6, hp, hsam]
    by_cases hcs : s = Status.completedSequence <;>
      simp [stopOutcome, pollResultToOutcome, hcs]

/-- C2 witness: `STATUS_FALLEN` is terminal, and with sample 0 dancing and
sample 1 completed the run returns success after exactly two polls. -/
theorem C2_witness :
    (check_dance_completed Status.fallen = true ↔
      (Status.fallen ≠ Status.prepping ∧ Status.fallen ≠ Status.dancing ∧
       Status.fallen ≠ Status.waitingForStartTime ∧ Status.fallen ≠ Status.validating))
    ∧ execute_dance ⟨false, Except.ok ⟨"d", 300, [⟨1⟩]⟩, UploadOutcome.ok,
        Except.ok (), Except.ok ExecStatus.ok,
        fun i => if i = 0 then Except.ok Status.dancing else Except.ok Status.completedSequence⟩ =
      (DanceOutcome.result true "success", callsBase ++ List.replicate 2 Call.poll) := by
  constructor
  · exact C2_terminal_classification.1 Status.fallen
  · have h := C2_terminal_classification.2
      ⟨false, Except.ok ⟨"d", 300, [⟨1⟩]⟩, UploadOutcome.ok,
        Except.ok (), Except.ok ExecStatus.ok,
        fun i => if i = 0 then Except.ok Status.dancing else Except.ok Status.completedSequence⟩
      ⟨"d", 300, [⟨1⟩]⟩ (1/5) 1 Status.completedSequence
      rfl rfl rfl rfl rfl (by norm_num [estLoop, estLoopAux])
      (fun j hj => by
        interval_cases j
        exact ⟨Status.dancing, rfl, rfl⟩)
      (by norm_num [withinWindow]) rfl rfl
    simpa using h

/-- C3: whenever the per-move loop produces a final estimate, it equals the
sum of `requested_slices` over all moves, divided by `slices_per_minute`,
times 60; and a routine of N identical moves of S slices at rate R yields
exactly `N*S/R*60`, deterministically. -/
theorem C3_estimate_formula :
    (∀ (moves : List Move) (rate est : ℚ),
      estLoop moves rate = Except.ok (some est) →
      est = (((moves.map Move.requested_slices).sum : ℤ) : ℚ) / rate * 60)
    ∧ ∀ (N : ℕ) (S : ℤ) (R : ℚ), R ≠ 0 → 1 ≤ N →
        estLoop (List.replicate N ⟨S⟩) R =
          Except.ok (some ((N : ℚ) * (S : ℚ) / R * 60)) := by
  constructor
  · intro moves rate est h
    exact (estLoop_ok_some h).2.2
  · intro N S R hR hN
    have hne : List.replicate N (⟨S⟩ : Move) ≠ [] := by
      intro hnil
      have := congrArg List.length hnil
      simp at this
      omega
    rw [estLoop_of_ne hne hR]
    unfold estimate_post_loop
    have hsum : ((List.replicate N (⟨S⟩ : Move)).map Move.requested_slices).sum = (N : ℤ) * S := by
      simp [List.map_replicate, List.sum_replicate, nsmul_eq_mul]
    rw [hsum]
    congr 2
    push_cast
    ring

/-- C3 witness: the spec's scenario — moves of 10 and 20 slices at 300
slices/minute give 6.0 seconds, and two 10-slice moves give 2*10/300*60. -/
theorem C3_witness :
    ((6 : ℚ) = ((([⟨10⟩, ⟨20⟩] : List Move).map Move.requested_slices).sum : ℤ) / 300 * 60)
    ∧ estLoop (List.replicate 2 ⟨10⟩) 300 =
        Except.ok (some ((2 : ℚ) * (10 : ℚ) / 300 * 60)) :=
  ⟨C3_estimate_formula.1 [⟨10⟩, ⟨20⟩] 300 6 (by norm_num [estLoop, estLoopAux]),
   C3_estimate_formula.2 2 10 300 (by norm_num) (by norm_num)⟩

/-- C4 counterexample: an exception from `upload_choreography` that is
neither `UnauthenticatedError` nor `ResponseError` is raised outside the
outer try of lines 125-162, so it propagates uncaught instead of being
converted into a `(false, "Error executing dance: ...")` result. -/
theorem C4_counterexample :
    execute_dance ⟨false, Except.ok ⟨"d", 300, [⟨1⟩]⟩,
        UploadOutcome.raises "connection reset", Except.ok (),
        Except.ok ExecStatus.ok, fun _ => Except.ok Status.dancing⟩ =
      (DanceOutcome.uncaught "connection reset", [Call.parse, Call.upload]) := rfl

/-- C4 (amended): unclassified exceptions raised at the power-on, the
execute-start, the duration-estimation, or any status-poll step are caught
by the outermost handler and converted into
`(false, "Error executing dance: <detail>")`; the timeout condition
propagates as a raised `CommandTimedOutError`; but an unclassified
exception from the upload step itself propagates uncaught to the caller. -/
theorem C4_exception_conversion :
    (∀ (env : DanceEnv) (seq : ChoreographySequence) (e : String),
      env.is_estopped = false → env.parseResult = Except.ok seq →
      env.uploadResult = UploadOutcome.ok → env.powerOn = Except.error e →
      execute_dance env =
        (DanceOutcome.result false (genericErrHead ++ e),
         [Call.parse, Call.upload, Call.powerOn]))
    ∧ (∀ (env : DanceEnv) (seq : ChoreographySequence) (e : String),
        env.is_estopped = false → env.parseResult = Except.ok seq →
        env.uploadResult = UploadOutcome.ok → env.powerOn = Except.ok () →
        env.executeResult = Except.error e →
        execute_dance env = (DanceOutcome.result false (genericErrHead ++ e), callsBase))
    ∧ (∀ (env : DanceEnv) (seq : ChoreographySequence) (e : String),
        env.is_estopped = false → env.parseResult = Except.ok seq →
        env.uploadResult = UploadOutcome.ok → env.powerOn = Except.ok () →
        env.executeResult = Except.ok ExecStatus.ok →
        estLoop seq.moves seq.slices_per_minute = Except.error e →
        execute_dance env = (DanceOutcome.result false (genericErrHead ++ e), callsBase))
    ∧ (∀ (env : DanceEnv) (seq : ChoreographySequence) (est : ℚ) (m : ℕ) (e : String),
        env.is_estopped = false → env.parseResult = Except.ok seq →
        env.uploadResult = UploadOutcome.ok → env.powerOn = Except.ok () →
        env.executeResult = Except.ok ExecStatus.ok →
        estLoop seq.moves seq.slices_per_minute = Except.ok (some est) →
        (∀ j, j < m → ∃ s0, env.samples j = Except.ok s0 ∧ check_dance_completed s0 = false) →
        withinWindow est m → env.samples m = Except.error e →
        execute_dance env =
          (DanceOutcome.result false (genericErrHead ++ e),
           callsBase ++ List.replicate (m + 1) Call.poll))
    ∧ (∀ (env : DanceEnv) (seq : ChoreographySequence) (est : ℚ),
        env.is_estopped = false → env.parseResult = Except.ok seq →
        env.uploadResult = UploadOutcome.ok → env.powerOn = Except.ok () →
        env.executeResult = Except.ok ExecStatus.ok →
        estLoop seq.moves seq.slices_per_minute = Except.ok (some est) →
        (∀ i, withinWindow est i →
          ∃ s, env.samples i = Except.ok s ∧ check_dance_completed s = false) →
        (execute_dance env).1 = DanceOutcome.commandTimedOutError timeoutMsg)
    ∧ ∀ (env : DanceEnv) (seq : ChoreographySequence) (e : String),
        env.is_estopped = false → env.parseResult = Except.ok seq →
        env.uploadResult = UploadOutcome.raises e →
        execute_dance env = (DanceOutcome.uncaught e, [Call.parse, Call.upload]) := by
  refine ⟨?_, ?_, ?_, ?_, ?_, ?_⟩
  · intro env seq e h1 h2 h3 h4
    simp [execute_dance, h1, h2, h3, h4]
  · intro env seq e h1 h2 h3 h4 h5
    simp [execute_dance, h1, h2, h3, h4, h5, callsBase]
  · intro env seq e h1 h2 h3 h4 h5 h6
    simp [execute_dance, h1, h2, h3, h4, h5, h6, callsBase]
  · intro env seq est m e h1 h2 h3 h4 h5 h6 hj hw hsam
    have hstop : stopsPoll (env.samples m) = true := by rw [hsam]; rfl
    have hp := pollLoop_stop (fun j hjm => hj j hjm) hw hstop
    rw [execute_dance_poll h1 h2 h3 h4 h5 h6, hp, hsam]
    simp [stopOutcome, pollResultToOutcome]
  · intro env seq est h1 h2 h3 h4 h5 h6 hw
    have hp : pollLoop est env.samples = (PollOutcome.timedOut, pollFuel est) :=
      pollLoop_timeout hw
    rw [execute_dance_poll h1 h2 h3 h4 h5 h6, hp]
    rfl
  · intro env seq e h1 h2 h3
    simp [execute_dance, h1, h2, h3]

/-- C4 witness: each branch of the amended claim at a concrete environment
(power-on failure, execute failure, the ZeroDivisionError of a zero
`slices_per_minute`, a poll failure at sample 0, an all-ongoing run that
raises the timeout, and an uncaught upload exception). -/
theorem C4_witness :
    (execute_dance ⟨false, Except.ok ⟨"d", 300, [⟨1⟩]⟩, UploadOutcome.ok,
        Except.error "power fault", Except.ok ExecStatus.ok,
        fun _ => Except.ok Status.dancing⟩ =
      (DanceOutcome.result false (genericErrHead ++ "power fault"),
       [Call.parse, Call.upload, Call.powerOn]))
    ∧ (execute_dance ⟨false, Except.ok ⟨"d", 300, [⟨1⟩]⟩, UploadOutcome.ok,
        Except.ok (), Except.error "rpc error",
        fun _ => Except.ok Status.dancing⟩ =
      (DanceOutcome.result false (genericErrHead ++ "rpc error"), callsBase))
    ∧ (execute_dance ⟨false, Except.ok ⟨"d", 0, [⟨1⟩]⟩, UploadOutcome.ok,
        Except.ok (), Except.ok ExecStatus.ok,
        fun _ => Except.ok Status.dancing⟩ =
      (DanceOutcome.result false (genericErrHead ++ zeroDivMsg), callsBase))
    ∧ (execute_dance ⟨false, Except.ok ⟨"d", 300, [⟨1⟩]⟩, UploadOutcome.ok,
        Except.ok (), Except.ok ExecStatus.ok,
        fun _ => Except.error "status unavailable"⟩ =
      (DanceOutcome.result false (genericErrHead ++ "status unavailable"),
       callsBase ++ List.replicate 1 Call.poll))
    ∧ ((execute_dance ⟨false, Except.ok ⟨"d", 300, [⟨1⟩]⟩, UploadOutcome.ok,
        Except.ok (), Except.ok ExecStatus.ok,
        fun _ => Except.ok Status.prepping⟩).1 =
      DanceOutcome.commandTimedOutError timeoutMsg)
    ∧ execute_dance ⟨false, Except.ok ⟨"d", 300, [⟨1⟩]⟩,
        UploadOutcome.raises "connection lost", Except.ok (),
        Except.ok ExecStatus.ok, fun _ => Except.ok Status.dancing⟩ =
      (DanceOutcome.uncaught "connection lost", [Call.parse, Call.upload]) := by
  refine ⟨?_, ?_, ?_, ?_, ?_, ?_⟩
  · exact C4_exception_conversion.1 _ ⟨"d", 300, [⟨1⟩]⟩ "power fault" rfl rfl rfl rfl
  · exact C4_exception_conversion.2.1 _ ⟨"d", 300, [⟨1⟩]⟩ "rpc error" rfl rfl rfl rfl rfl
  · exact C4_exception_conversion.2.2.1 _ ⟨"d", 0, [⟨1⟩]⟩ zeroDivMsg
      rfl rfl rfl rfl rfl (by norm_num [estLoop, estLoopAux])
  · exact C4_exception_conversion.2.2.2.1 _ ⟨"d", 300, [⟨1⟩]⟩ (1/5) 0 "status unavailable"
      rfl rfl rfl rfl rfl (by norm_num [estLoop, estLoopAux])
      (fun j hj => absurd hj (Nat.not_lt_zero j)) (by norm_num [withinWindow]) rfl
  · exact C4_exception_conversion.2.2.2.2.1 _ ⟨"d", 300, [⟨1⟩]⟩ (1/5)
      rfl rfl rfl rfl rfl (by norm_num [estLoop, estLoopAux])
      (fun i _ => ⟨Status.prepping, rfl, rfl⟩)
  · exact C4_exception_conversion.2.2.2.2.2 _ ⟨"d", 300, [⟨1⟩]⟩ "connection lost" rfl rfl rfl

/-- C5: whenever the robot reports an estop, `execute_dance` fails at once
with the external E-Stop client message and performs no call at all — no
parse, upload, power-on, execute, or poll. -/
theorem C5_estop (env : DanceEnv) (h : env.is_estopped = true) :
    execute_dance env = (DanceOutcome.result false estopMsg, []) ∧
    ∃ a b, estopMsg = a ++ "external E-Stop client" ++ b := by
  refine ⟨by simp [execute_dance, h], "Robot is estopped. Please use an ", "", by rfl⟩

/-- C5 witness: a concrete estopped environment. -/
theorem C5_witness :
    execute_dance ⟨true, Except.ok ⟨"d", 300, [⟨1⟩]⟩, UploadOutcome.ok,
        Except.ok (), Except.ok ExecStatus.ok, fun _ => Except.ok Status.dancing⟩ =
      (DanceOutcome.result false estopMsg, []) :=
  (C5_estop _ rfl).1

/-- C6: an `UnauthenticatedError` from upload yields the license message
(mentioning "license") with no execute call; a `ResponseError` yields the
failure message that appends every returned warning in order. -/
theorem C6_upload_errors :
    (∀ (env : DanceEnv) (seq : ChoreographySequence) (d : String),
      env.is_estopped = false → env.parseResult = Except.ok seq →
      env.uploadResult = UploadOutcome.unauthenticated d →
      execute_dance env = (DanceOutcome.result false licenseMsg, [Call.parse, Call.upload]) ∧
      (∃ a b, licenseMsg = a ++ "license" ++ b) ∧
      Call.execute ∉ (execute_dance env).2)
    ∧ ∀ (env : DanceEnv) (seq : ChoreographySequence) (ws : List String),
        env.is_estopped = false → env.parseResult = Except.ok seq →
        env.uploadResult = UploadOutcome.responseError ws →
        execute_dance env =
          (DanceOutcome.result false (warnHead ++ String.join ws), [Call.parse, Call.upload]) := by
  constructor
  · intro env seq d h1 h2 h3
    have hrun : execute_dance env =
        (DanceOutcome.result false licenseMsg, [Call.parse, Call.upload]) := by
      simp [execute_dance, h1, h2, h3]
    exact ⟨hrun, ⟨"The robot ", " must contain 'choreography' permissions to upload and execute dances.", by rfl⟩,
      by rw [hrun]; simp⟩
  · intro env seq ws h1 h2 h3
    simp [execute_dance, h1, h2, h3]

/-- C6 witness: a concrete unauthenticated upload, and a validation error
with two warnings whose message is the head followed by both warnings in
order. -/
theorem C6_witness :
    (execute_dance ⟨false, Except.ok ⟨"d", 300, [⟨1⟩]⟩,
        UploadOutcome.unauthenticated "no perm", Except.ok (),
        Except.ok ExecStatus.ok, fun _ => Except.ok Status.dancing⟩ =
      (DanceOutcome.result false licenseMsg, [Call.parse, Call.upload]))
    ∧ execute_dance ⟨false, Except.ok ⟨"d", 300, [⟨1⟩]⟩,
        UploadOutcome.responseError ["w1", "w2"], Except.ok (),
        Except.ok ExecStatus.ok, fun _ => Except.ok Status.dancing⟩ =
      (DanceOutcome.result false (warnHead ++ String.join ["w1", "w2"]),
       [Call.parse, Call.upload]) :=
  ⟨(C6_upload_errors.1 _ ⟨"d", 300, [⟨1⟩]⟩ "no perm" rfl rfl rfl).1,
   C6_upload_errors.2 _ ⟨"d", 300, [⟨1⟩]⟩ ["w1", "w2"] rfl rfl rfl⟩

/-- C7: whenever parsing the routine text raises, `execute_dance` returns
failure with the parse message built from the raised exception's text, and
never calls upload. -/
theorem C7_parse_failure (env : DanceEnv) (e : String)
    (h1 : env.is_estopped = false) (h2 : env.parseResult = Except.error e) :
    execute_dance env = (DanceOutcome.result false (parseErrHead ++ e), [Call.parse]) ∧
    Call.upload ∉ (execute_dance env).2 := by
  have hrun : execute_dance env =
      (DanceOutcome.result false (parseErrHead ++ e), [Call.parse]) := by
    simp [execute_dance, h1, h2]
  exact ⟨hrun, by rw [hrun]; simp⟩

/-- C7 witness: a concrete malformed-routine environment. -/
theorem C7_witness :
    execute_dance ⟨false, Except.error "syntax error at line 1", UploadOutcome.ok,
        Except.ok (), Except.ok ExecStatus.ok, fun _ => Except.ok Status.dancing⟩ =
      (DanceOutcome.result false (parseErrHead ++ "syntax error at line 1"), [Call.parse]) :=
  (C7_parse_failure _ "syntax error at line 1" rfl rfl).1

/-- C8: the in-loop recomputation of `estimated_time_seconds` (lines
139-144) agrees, for every routine with at least one move and a nonzero
rate, with the spec's single post-loop computation over the full move
list: only the final assigned value matters. -/
theorem C8_estimate_refinement (moves : List Move) (rate : ℚ)
    (hm : moves ≠ []) (hr : rate ≠ 0) :
    estLoop moves rate = Except.ok (some (estimate_post_loop moves rate)) :=
  estLoop_of_ne hm hr

/-- C8 witness: the spec's scenario routine (10- and 20-slice moves at 300
slices/minute). -/
theorem C8_witness :
    estLoop [⟨10⟩, ⟨20⟩] 300 =
      Except.ok (some (estimate_post_loop [⟨10⟩, ⟨20⟩] 300)) :=
  C8_estimate_refinement [⟨10⟩, ⟨20⟩] 300 (by simp) (by norm_num)

/-- C9 counterexample: on a conversion failure `upload_animation` returns
the source's message "Failed to convert animation file to protobuf
message: <detail>", not the literal "conversion failed: <detail>" the
claim quotes. -/
theorem C9_counterexample :
    upload_animation ⟨Except.error "bad input", Except.ok ()⟩ =
      ((false, "Failed to convert animation file to protobuf message: bad input"),
       [AnimCall.convert]) ∧
    "Failed to convert animation file to protobuf message: bad input" ≠
      "conversion failed: bad input" := by
  constructor
  · rfl
  · decide

/-- C9 (amended): on every conversion failure `upload_animation` returns
`(false, "Failed to convert animation file to protobuf message: <detail>")`
— a message that mentions the conversion ("convert") and embeds the
converter's error detail — and makes no animation-upload call. -/
theorem C9_conversion_failure (env : AnimEnv) (e : String)
    (h : env.convertResult = Except.error e) :
    upload_animation env = ((false, convErrHead ++ e), [AnimCall.convert]) ∧
    (∃ a b, convErrHead = a ++ "convert" ++ b) ∧
    AnimCall.upload ∉ (upload_animation env).2 := by
  have hrun : upload_animation env = ((false, convErrHead ++ e), [AnimCall.convert]) := by
    simp [upload_animation, h]
  exact ⟨hrun, ⟨"Failed to ", " animation file to protobuf message: ", by rfl⟩,
    by rw [hrun]; simp⟩

/-- C9 witness: a concrete failing conversion. -/
theorem C9_witness :
    upload_animation ⟨Except.error "unexpected token", Except.ok ()⟩ =
      ((false, convErrHead ++ "unexpected token"), [AnimCall.convert]) :=
  (C9_conversion_failure ⟨Except.error "unexpected token", Except.ok ()⟩
    "unexpected token" rfl).1

/-- C10: a routine that parses to zero moves, with upload and execute both
succeeding with OK status, never enters the polling loop: the
`estimated_time_seconds` variable is never assigned, its use raises, and
the outer handler converts that into the generic failure tuple. -/
theorem C10_zero_moves (env : DanceEnv) (seq : ChoreographySequence)
    (h1 : env.is_estopped = false) (h2 : env.parseResult = Except.ok seq)
    (hm : seq.moves = []) (h3 : env.uploadResult = UploadOutcome.ok)
    (h4 : env.powerOn = Except.ok ()) (h5 : env.executeResult = Except.ok ExecStatus.ok) :
    execute_dance env =
      (DanceOutcome.result false (genericErrHead ++ unboundLocalMsg), callsBase) ∧
    Call.poll ∉ (execute_dance env).2 := by
  have hest : estLoop seq.moves seq.slices_per_minute = Except.ok none := by
    rw [hm]; rfl
  have hrun : execute_dance env =
      (DanceOutcome.result false (genericErrHead ++ unboundLocalMsg), callsBase) := by
    simp [execute_dance, h1, h2, h3, h4, h5, hest]
  refine ⟨hrun, by rw [hrun]; simp [callsBase]⟩

/-- C10 witness: a concrete zero-move routine. -/
theorem C10_witness :
    execute_dance ⟨false, Except.ok ⟨"empty", 300, []⟩, UploadOutcome.ok,
        Except.ok (), Except.ok ExecStatus.ok, fun _ => Except.ok Status.dancing⟩ =
      (DanceOutcome.result false (genericErrHead ++ unboundLocalMsg), callsBase) :=
  (C10_zero_moves _ ⟨"empty", 300, []⟩ rfl rfl rfl rfl rfl rfl).1

end SpotDance
